import Mathlib

/-!
Shallow embedding of `src/main.rs` of the gravit_starter bootstrapper.

The orchestration lives in `run_downloader` (worker thread) and `main`
(process entry).  The leaf operations (`get_jre`, `jre::download_jre`,
`jre::extract_jre`, `launcher::launcher_exist`,
`launcher::download_launcher`, `launcher::run_launcher`) live in modules
whose sources are not part of the checked tree; they are fallible calls
whose outcomes we abstract into an environment `Env`, one field per call
site, in the order the source performs the calls.  Each function is
translated into a function from the environment to the linear trace of
events it performs: leaf-operation calls, channel sends, wake notices,
panics, and UI construction.
-/

namespace GravitStarter

/-- Events observable in one process run: each leaf-operation call with its
outcome, a `send(v)` on the mpsc channel, a `notice()` wake, a panic
(thread abort, from the `error!` macro's trailing `panic!()` or from
`Option::unwrap` on `None`), and construction of the observer UI. -/
inductive Ev : Type
  | probeJre (res : Option String)
  | downloadJre (ok : Bool)
  | extractJre (ok : Bool)
  | probeLauncher (res : Bool)
  | downloadLauncher (ok : Bool)
  | launch (jre : String) (ok : Bool)
  | send (v : Nat)
  | notice
  | panic
  | buildUi
  deriving DecidableEq, Repr

/-- Outcome of every leaf-operation call site, in source order.  `get_jre`
is called once before any download (in `main` and at the top of
`run_downloader`, observing the same filesystem state) and once more as
the re-probe after extraction; `launcher_exist` is called at line 204 and
again at line 210. -/
structure Env : Type where
  get_jre_first : Option String
  download_jre_ok : Bool
  extract_jre_ok : Bool
  get_jre_reprobe : Option String
  launcher_exist_first : Bool
  download_launcher_ok : Bool
  launcher_exist_second : Bool
  run_launcher_ok : Bool
  deriving DecidableEq, Repr

/-- Lines 209-218: `update!(send, notice, 3)`, then
`if launcher_exist() { if run_launcher(..).is_err() { error! } else { update!(.., 10) } } else { error! }`.
The `error!` macro (lines 172-178) expands to `send(11); notice(); panic!()`,
the `update!` macro (lines 180-185) to `send(x); notice();`. -/
def launchPhase (env : Env) (jre_path : String) : List Ev :=
  [Ev.send 3, Ev.notice] ++
  if env.launcher_exist_second then
    [Ev.probeLauncher true] ++
    (if env.run_launcher_ok then
      [Ev.launch jre_path true, Ev.send 10, Ev.notice]
    else
      [Ev.launch jre_path false, Ev.send 11, Ev.notice, Ev.panic])
  else
    [Ev.probeLauncher false, Ev.send 11, Ev.notice, Ev.panic]

/-- Lines 204-208: `if !launcher_exist() { if download_launcher().is_err() { error! } }`,
then fall through to the launch phase. -/
def launcherPhase (env : Env) (jre_path : String) : List Ev :=
  if env.launcher_exist_first then
    [Ev.probeLauncher true] ++ launchPhase env jre_path
  else
    [Ev.probeLauncher false] ++
    if env.download_launcher_ok then
      [Ev.downloadLauncher true] ++ launchPhase env jre_path
    else
      [Ev.downloadLauncher false, Ev.send 11, Ev.notice, Ev.panic]

/-- Lines 187-219, the worker body.  On the `None` branch of the first
`get_jre()`: download (on error `error!`, else `update!(1)`), extract (on
error `error!`, else `update!(2)`), then `get_jre().unwrap()` — note the
`unwrap`: if the re-probe still returns `None` the thread panics without
sending any signal. -/
def run_downloader (env : Env) : List Ev :=
  match env.get_jre_first with
  | some p => Ev.probeJre (some p) :: launcherPhase env p
  | none =>
    Ev.probeJre none ::
    if env.download_jre_ok then
      [Ev.downloadJre true, Ev.send 1, Ev.notice] ++
      if env.extract_jre_ok then
        [Ev.extractJre true, Ev.send 2, Ev.notice] ++
        (match env.get_jre_reprobe with
        | some p => Ev.probeJre (some p) :: launcherPhase env p
        | none => [Ev.probeJre none, Ev.panic])
      else
        [Ev.extractJre false, Ev.send 11, Ev.notice, Ev.panic]
    else
      [Ev.downloadJre false, Ev.send 11, Ev.notice, Ev.panic]

/-- Lines 238-248: `main`.  `let jre = get_jre(); if launcher_exist() && jre.is_some()`
then `run_launcher(jre.unwrap().as_path());` with the `Result` discarded;
otherwise the nwg UI is built and the worker runs (spawned from OnInit). -/
def main_run (env : Env) : List Ev :=
  [Ev.probeJre env.get_jre_first, Ev.probeLauncher env.launcher_exist_first] ++
  if env.launcher_exist_first ∧ env.get_jre_first.isSome then
    match env.get_jre_first with
    | some p => [Ev.launch p env.run_launcher_ok]
    | none => []
  else
    Ev.buildUi :: run_downloader env

/-- The channel payload of a send event, if any. -/
def sendVal : Ev → Option Nat
  | Ev.send v => some v
  | _ => none

/-- The sequence of signal values sent on the channel, in emission order. -/
def signalsOf (t : List Ev) : List Nat :=
  t.filterMap sendVal

def isNotice : Ev → Bool
  | Ev.notice => true
  | _ => false

def isProbeJre : Ev → Bool
  | Ev.probeJre _ => true
  | _ => false

def isSend (v : Nat) : Ev → Bool
  | Ev.send w => w == v
  | _ => false

def isDownloadJreOk : Ev → Bool
  | Ev.downloadJre true => true
  | _ => false

def isExtractJreOk : Ev → Bool
  | Ev.extractJre true => true
  | _ => false

/-- A failed fetch operation (runtime download or launcher download). -/
def isFetchFail : Ev → Bool
  | Ev.downloadJre false => true
  | Ev.downloadLauncher false => true
  | _ => false

/-- A fetch or install operation call (any outcome). -/
def isFetchOrInstall : Ev → Bool
  | Ev.downloadJre _ => true
  | Ev.extractJre _ => true
  | Ev.downloadLauncher _ => true
  | _ => false

/-- A `run_launcher` spawn call (any outcome). -/
def isLaunch : Ev → Bool
  | Ev.launch _ _ => true
  | _ => false

/-- A send of a terminal signal value (10 Completed, 11 Failed). -/
def isTerminalSend : Ev → Bool
  | Ev.send v => v == 10 || v == 11
  | _ => false

/-- FIFO channel semantics of `std::sync::mpsc` as used here: a send event
appends its payload to the queue; each `OnNotice` wake makes the observer
call `recv()` exactly once (lines 127-149), removing the head.  Returns
the list of payloads the observer receives, in order.  When a notice finds
an empty queue the observer would block in `recv()`; that case is modelled
as receiving nothing (it is proved unreachable for worker traces). -/
def deliverAux : List Nat → List Ev → List Nat
  | _, [] => []
  | q, Ev.send v :: rest => deliverAux (q ++ [v]) rest
  | q, Ev.notice :: rest =>
    (match q with
    | [] => deliverAux [] rest
    | v :: q' => v :: deliverAux q' rest)
  | q, Ev.probeJre _ :: rest => deliverAux q rest
  | q, Ev.downloadJre _ :: rest => deliverAux q rest
  | q, Ev.extractJre _ :: rest => deliverAux q rest
  | q, Ev.probeLauncher _ :: rest => deliverAux q rest
  | q, Ev.downloadLauncher _ :: rest => deliverAux q rest
  | q, Ev.launch _ _ :: rest => deliverAux q rest
  | q, Ev.panic :: rest => deliverAux q rest
  | q, Ev.buildUi :: rest => deliverAux q rest

/-- Payloads the observer dequeues over a whole trace, starting empty. -/
def delivered (t : List Ev) : List Nat :=
  deliverAux [] t

/-- Checks that along the trace every wake notice finds at least one
payload already enqueued and not yet claimed by an earlier notice: the
argument is the running count of sends minus notices, and a notice at
count zero would wake the observer before its payload is enqueued. -/
def wakeDisc : Nat → List Ev → Bool
  | _, [] => true
  | k, Ev.send _ :: rest => wakeDisc (k + 1) rest
  | k, Ev.notice :: rest => k != 0 && wakeDisc (k - 1) rest
  | k, Ev.probeJre _ :: rest => wakeDisc k rest
  | k, Ev.downloadJre _ :: rest => wakeDisc k rest
  | k, Ev.extractJre _ :: rest => wakeDisc k rest
  | k, Ev.probeLauncher _ :: rest => wakeDisc k rest
  | k, Ev.downloadLauncher _ :: rest => wakeDisc k rest
  | k, Ev.launch _ _ :: rest => wakeDisc k rest
  | k, Ev.panic :: rest => wakeDisc k rest
  | k, Ev.buildUi :: rest => wakeDisc k rest

/-- Auxiliary scan: `prev` is the event just before the current head. -/
def onlyAfterAux (tgt guard : Ev → Bool) : Ev → List Ev → Bool
  | _, [] => true
  | prev, a :: rest => (!tgt a || guard prev) && onlyAfterAux tgt guard a rest

/-- Every event satisfying `tgt` occurs immediately after an event
satisfying `guard` (in particular never first). -/
def onlyAfter (tgt guard : Ev → Bool) : List Ev → Bool
  | [] => true
  | a :: rest => !tgt a && onlyAfterAux tgt guard a rest

/-- Environment exhibiting the defensive re-probe failure: the runtime is
absent, its download and extraction succeed, yet the re-probe still
reports it absent. -/
def envReprobeMiss : Env :=
  { get_jre_first := none
    download_jre_ok := true
    extract_jre_ok := true
    get_jre_reprobe := none
    launcher_exist_first := true
    download_launcher_ok := true
    launcher_exist_second := true
    run_launcher_ok := true }

/-- Environment for the fully-installed fast path. -/
def envFast : Env :=
  { get_jre_first := some "jre"
    download_jre_ok := true
    extract_jre_ok := true
    get_jre_reprobe := some "jre"
    launcher_exist_first := true
    download_launcher_ok := true
    launcher_exist_second := true
    run_launcher_ok := true }

/-- Fast-path environment whose spawn fails. -/
def envFastSpawnFail : Env :=
  { envFast with run_launcher_ok := false }

/-- Environment whose runtime download fails. -/
def envDlFail : Env :=
  { envFast with get_jre_first := none, download_jre_ok := false }

/-- The launcher phase emits one of three signal sequences. -/
lemma launcherPhase_signals (env : Env) (p : String) :
    signalsOf (launcherPhase env p) ∈ ([[11], [3, 10], [3, 11]] : List (List Nat)) := by
  obtain ⟨g1, d, e, g2, l1, dl, l2, r⟩ := env
  cases l1 <;> cases dl <;> cases l2 <;> cases r <;>
    simp [launcherPhase, launchPhase, signalsOf, sendVal]

/-- A full worker run emits one of eight signal sequences. -/
lemma run_downloader_signals (env : Env) :
    signalsOf (run_downloader env) ∈
      ([[11], [3, 10], [3, 11], [1, 11], [1, 2], [1, 2, 11], [1, 2, 3, 10],
        [1, 2, 3, 11]] : List (List Nat)) := by
  rcases h1 : env.get_jre_first with _ | p
  · rcases h2 : env.download_jre_ok with _ | _
    · simp [run_downloader, h1, h2, signalsOf, sendVal]
    · rcases h3 : env.extract_jre_ok with _ | _
      · simp [run_downloader, h1, h2, h3, signalsOf, sendVal]
      · rcases h4 : env.get_jre_reprobe with _ | q
        · simp [run_downloader, h1, h2, h3, h4, signalsOf, sendVal]
        · have hl := launcherPhase_signals env q
          simp only [List.mem_cons, List.not_mem_nil, or_false, signalsOf] at hl
          rcases hl with hl | hl | hl <;>
            simp [run_downloader, h1, h2, h3, h4, signalsOf, sendVal, hl]
  · have hl := launcherPhase_signals env p
    simp only [List.mem_cons, List.not_mem_nil, or_false, signalsOf] at hl
    rcases hl with hl | hl | hl <;>
      simp [run_downloader, h1, signalsOf, sendVal, hl]

/-- C10: every sequence of signal values sent by a single run of the worker
workflow is strictly increasing, drawn from {1, 2, 3, 10, 11}, contains at
most one terminal value (10 or 11), and a terminal value, when present, is
the last element. -/
theorem c10_signal_sequence_shape (env : Env) :
    List.Pairwise (· < ·) (signalsOf (run_downloader env)) ∧
    (signalsOf (run_downloader env)).all
      (fun v => v == 1 || v == 2 || v == 3 || v == 10 || v == 11) = true ∧
    (signalsOf (run_downloader env)).countP (fun v => v == 10 || v == 11) ≤ 1 ∧
    (signalsOf (run_downloader env)).dropLast.all
      (fun v => v == 1 || v == 2 || v == 3) = true := by
  have h := run_downloader_signals env
  simp only [List.mem_cons, List.not_mem_nil, or_false] at h
  rcases h with h | h | h | h | h | h | h | h <;> rw [h] <;> decide

/-- C8: along every worker trace each wake notice is delivered only after
its payload is enqueued (the send-minus-notice counter never hits a notice
at zero), each wake dequeues exactly one payload, and the observer
receives exactly the emitted signal values in emission order, with one
notice per send and nothing dropped or coalesced. -/
theorem c8_fifo_delivery_in_emission_order (env : Env) :
    wakeDisc 0 (run_downloader env) = true ∧
    delivered (run_downloader env) = signalsOf (run_downloader env) ∧
    (run_downloader env).countP isNotice = (signalsOf (run_downloader env)).length := by
  obtain ⟨g1, d, e, g2, l1, dl, l2, r⟩ := env
  cases g1 <;> cases d <;> cases e <;> cases g2 <;> cases l1 <;> cases dl <;>
      cases l2 <;> cases r <;>
    simp [run_downloader, launcherPhase, launchPhase, signalsOf, sendVal,
      delivered, deliverAux, wakeDisc, isNotice]

/-- C7: signal 1 (FetchingRuntime) occurs in a worker trace only
immediately after a successful runtime download, and signal 2
(ExtractingRuntime) only immediately after a successful extraction —
never before the operation starts and never when it fails; and on the
missing-runtime path with a successful download (resp. extraction) the
signal is indeed sent. -/
theorem c7_stage_signals_follow_completion (env : Env) :
    onlyAfter (isSend 1) isDownloadJreOk (run_downloader env) = true ∧
    onlyAfter (isSend 2) isExtractJreOk (run_downloader env) = true ∧
    (env.get_jre_first = none → env.download_jre_ok = true →
      Ev.send 1 ∈ run_downloader env) ∧
    (env.get_jre_first = none → env.download_jre_ok = true →
      env.extract_jre_ok = true → Ev.send 2 ∈ run_downloader env) := by
  obtain ⟨g1, d, e, g2, l1, dl, l2, r⟩ := env
  cases g1 <;> cases d <;> cases e <;> cases g2 <;> cases l1 <;> cases dl <;>
      cases l2 <;> cases r <;>
    simp [run_downloader, launcherPhase, launchPhase, onlyAfter, onlyAfterAux,
      isSend, isDownloadJreOk, isExtractJreOk]

/-- C7 witness: on the concrete environment where the runtime is missing
and both download and extraction succeed, signals 1 and 2 are sent. -/
theorem c7_stage_signals_follow_completion_witness :
    envReprobeMiss.get_jre_first = none ∧
    Ev.send 1 ∈ run_downloader envReprobeMiss ∧
    Ev.send 2 ∈ run_downloader envReprobeMiss :=
  ⟨rfl, (c7_stage_signals_follow_completion envReprobeMiss).2.2.1 rfl rfl,
    (c7_stage_signals_follow_completion envReprobeMiss).2.2.2 rfl rfl rfl⟩

/-- C1 (bug evidence): on the path where the re-probe after a successful
extraction reports the runtime still absent, the worker sends signals 1
and 2 and then aborts via the `unwrap` panic: no terminal signal (10 or
11) is ever sent, contradicting the exactly-one-terminal-signal guarantee
on that code path. -/
theorem c1_reprobe_miss_aborts_without_terminal :
    signalsOf (run_downloader envReprobeMiss) = [1, 2] ∧
    (run_downloader envReprobeMiss).getLast? = some Ev.panic ∧
    (run_downloader envReprobeMiss).countP isTerminalSend = 0 := by
  decide

/-- C2 (bug evidence): after the successful extraction the runtime probe
is re-run exactly once (two `get_jre` calls in the whole trace) and the
workflow does not loop, but on the absent re-probe it aborts via panic
without sending the Failed signal, contrary to the claim that Failed is
emitted. -/
theorem c2_reprobe_once_but_no_failed_signal :
    run_downloader envReprobeMiss =
      [Ev.probeJre none, Ev.downloadJre true, Ev.send 1, Ev.notice,
        Ev.extractJre true, Ev.send 2, Ev.notice, Ev.probeJre none, Ev.panic] ∧
    (run_downloader envReprobeMiss).countP isProbeJre = 2 ∧
    (run_downloader envReprobeMiss).countP (isSend 11) = 0 := by
  decide

/-- C3: when the first runtime probe returns a path and the
application-existence probe returns true, `main` performs exactly the two
probes and the launch call — the same operations the worker workflow
uses — without building the observer UI and without sending any signal. -/
theorem c3_fast_path_direct_launch (env : Env) (p : String)
    (h1 : env.get_jre_first = some p) (h2 : env.launcher_exist_first = true) :
    main_run env =
      [Ev.probeJre (some p), Ev.probeLauncher true, Ev.launch p env.run_launcher_ok] ∧
    signalsOf (main_run env) = [] ∧
    Ev.buildUi ∉ main_run env := by
  simp [main_run, h1, h2, signalsOf, sendVal]

/-- C3 witness: the fast path at the concrete fully-installed environment. -/
theorem c3_fast_path_direct_launch_witness :
    envFast.get_jre_first = some "jre" ∧ envFast.launcher_exist_first = true ∧
    (main_run envFast =
      [Ev.probeJre (some "jre"), Ev.probeLauncher true,
        Ev.launch "jre" envFast.run_launcher_ok] ∧
     signalsOf (main_run envFast) = [] ∧ Ev.buildUi ∉ main_run envFast) :=
  ⟨rfl, rfl, c3_fast_path_direct_launch envFast "jre" rfl rfl⟩

/-- C4: when both probes report present at the start of a worker run, the
run performs no fetch or install call and its signal sequence is exactly
the Launching signal 3 followed by one terminal signal. -/
theorem c4_already_installed_signals (env : Env) (p : String)
    (h1 : env.get_jre_first = some p) (h2 : env.launcher_exist_first = true) :
    (run_downloader env).all (fun e => !isFetchOrInstall e) = true ∧
    ∃ t, (t = 10 ∨ t = 11) ∧ signalsOf (run_downloader env) = [3, t] := by
  constructor
  · cases h3 : env.launcher_exist_second <;> cases h4 : env.run_launcher_ok <;>
      simp [run_downloader, launcherPhase, launchPhase, h1, h2, h3, h4,
        isFetchOrInstall]
  · cases h3 : env.launcher_exist_second <;> cases h4 : env.run_launcher_ok
    · exact ⟨11, Or.inr rfl, by
        simp [run_downloader, launcherPhase, launchPhase, h1, h2, h3, h4,
          signalsOf, sendVal]⟩
    · exact ⟨11, Or.inr rfl, by
        simp [run_downloader, launcherPhase, launchPhase, h1, h2, h3, h4,
          signalsOf, sendVal]⟩
    · exact ⟨11, Or.inr rfl, by
        simp [run_downloader, launcherPhase, launchPhase, h1, h2, h3, h4,
          signalsOf, sendVal]⟩
    · exact ⟨10, Or.inl rfl, by
        simp [run_downloader, launcherPhase, launchPhase, h1, h2, h3, h4,
          signalsOf, sendVal]⟩

/-- C4 witness: both probes present at the concrete environment. -/
theorem c4_already_installed_signals_witness :
    envFast.get_jre_first = some "jre" ∧ envFast.launcher_exist_first = true ∧
    ((run_downloader envFast).all (fun e => !isFetchOrInstall e) = true ∧
     ∃ t, (t = 10 ∨ t = 11) ∧ signalsOf (run_downloader envFast) = [3, t]) :=
  ⟨rfl, rfl, c4_already_installed_signals envFast "jre" rfl rfl⟩

/-- C5: whenever a fetch operation (runtime download or launcher download)
fails in a worker run, everything after the failing fetch call is exactly
the Failed send 11, its wake notice and the panic: no further fetch,
install or launch call and no other signal. -/
theorem c5_fetch_failure_stops_run (env : Env)
    (h : (run_downloader env).any isFetchFail = true) :
    ∃ f, (run_downloader env).dropWhile (fun e => !isFetchFail e) =
        [f, Ev.send 11, Ev.notice, Ev.panic] ∧ isFetchFail f = true := by
  obtain ⟨g1, d, e, g2, l1, dl, l2, r⟩ := env
  cases g1 <;> cases d <;> cases e <;> cases g2 <;> cases l1 <;> cases dl <;>
      cases l2 <;> cases r <;>
    simp_all [run_downloader, launcherPhase, launchPhase, isFetchFail]

/-- C5 witness: the concrete environment whose runtime download fails. -/
theorem c5_fetch_failure_stops_run_witness :
    (run_downloader envDlFail).any isFetchFail = true ∧
    ∃ f, (run_downloader envDlFail).dropWhile (fun e => !isFetchFail e) =
        [f, Ev.send 11, Ev.notice, Ev.panic] ∧ isFetchFail f = true :=
  ⟨by decide, c5_fetch_failure_stops_run envDlFail (by decide)⟩

/-- C6: in any run that reaches the launch phase (signal 3 sent), if the
second application probe reports present the launch call happens exactly
once and the last signal is 10 on spawn success and 11 on spawn failure;
if it reports absent, no launch call ever happens and the last signal is
11. -/
theorem c6_launch_guarded_by_probe (env : Env)
    (h3 : Ev.send 3 ∈ run_downloader env) :
    (env.launcher_exist_second = true →
      (run_downloader env).countP isLaunch = 1 ∧
      (signalsOf (run_downloader env)).getLast? =
        some (if env.run_launcher_ok then 10 else 11)) ∧
    (env.launcher_exist_second = false →
      (run_downloader env).countP isLaunch = 0 ∧
      (signalsOf (run_downloader env)).getLast? = some 11) := by
  obtain ⟨g1, d, e, g2, l1, dl, l2, r⟩ := env
  cases g1 <;> cases d <;> cases e <;> cases g2 <;> cases l1 <;> cases dl <;>
      cases l2 <;> cases r <;>
    simp_all [run_downloader, launcherPhase, launchPhase, isLaunch,
      signalsOf, sendVal]

/-- C6 witness: the fully-installed environment reaches the launch phase
with the probe present and a successful spawn. -/
theorem c6_launch_guarded_by_probe_witness :
    Ev.send 3 ∈ run_downloader envFast ∧
    ((run_downloader envFast).countP isLaunch = 1 ∧
     (signalsOf (run_downloader envFast)).getLast? =
       some (if envFast.run_launcher_ok then 10 else 11)) :=
  ⟨by decide, (c6_launch_guarded_by_probe envFast (by decide)).1 rfl⟩

/-- C9: on the fast path with a failing spawn, `main` performs the two
probes and the launch call, discards the failure, sends no signal,
delivers nothing to any observer, does not panic, and produces the same
trace as the successful spawn except for the recorded spawn outcome. -/
theorem c9_fast_path_discards_spawn_failure (env : Env) (p : String)
    (h1 : env.get_jre_first = some p) (h2 : env.launcher_exist_first = true)
    (h3 : env.run_launcher_ok = false) :
    main_run env = [Ev.probeJre (some p), Ev.probeLauncher true, Ev.launch p false] ∧
    signalsOf (main_run env) = [] ∧
    delivered (main_run env) = [] ∧
    Ev.panic ∉ main_run env ∧
    main_run { env with run_launcher_ok := true } =
      [Ev.probeJre (some p), Ev.probeLauncher true, Ev.launch p true] := by
  obtain ⟨g1, d, e, g2, l1, dl, l2, r⟩ := env
  subst h1; subst h2; subst h3
  simp [main_run, signalsOf, sendVal, delivered, deliverAux]

/-- C9 witness: the concrete fast-path environment whose spawn fails. -/
theorem c9_fast_path_discards_spawn_failure_witness :
    envFastSpawnFail.get_jre_first = some "jre" ∧
    envFastSpawnFail.run_launcher_ok = false ∧
    (main_run envFastSpawnFail =
      [Ev.probeJre (some "jre"), Ev.probeLauncher true, Ev.launch "jre" false] ∧
     signalsOf (main_run envFastSpawnFail) = [] ∧
     delivered (main_run envFastSpawnFail) = [] ∧
     Ev.panic ∉ main_run envFastSpawnFail ∧
     main_run { envFastSpawnFail with run_launcher_ok := true } =
       [Ev.probeJre (some "jre"), Ev.probeLauncher true, Ev.launch "jre" true]) :=
  ⟨rfl, rfl, c9_fast_path_discards_spawn_failure envFastSpawnFail "jre" rfl rfl rfl⟩

end GravitStarter
